import Mathlib

/-!
Verification of the gateway connection subsystem of the livestorejs/discord-bot
repository against its natural-language specification.

The TypeScript sources are shallowly embedded:

* `SimpleConnectionManager.ts` — the pure reconnection policy
  (`shouldReconnect`, `canResumeSession`) and the retry wrapper
  (`withExponentialBackoff`, embedded as an invocation-counting retry loop);
* `ErrorRecovery.ts` — `withCircuitBreaker`, embedded as a state-transition
  function over the closure variables `consecutiveFailures` / `lastFailureTime`;
* `DiscordGatewayService.ts` — the gateway session: per-frame message handler,
  heartbeat cycle, and connection-state handler, embedded as step functions over
  an explicit `GatewayState`, emitting a trace of observable actions (queue
  offers, socket sends, timers, closes).

JS `switch` statements are translated to equality-test chains, mutable closure
state to explicit state passing, and fallible effects to `Except`.
-/

namespace DiscordBot

/-! ## Reconnection policy (src/services/SimpleConnectionManager.ts) -/

/-- Close-code classification from `SimpleConnectionManager.shouldReconnect`.
The `switch` lists the reconnectable codes (shared `return true` body), returns
`false` for 4004 (authentication failed), and `true` in the `default` branch. -/
def shouldReconnect (closeCode : Nat) : Bool :=
  if closeCode = 1000 ∨ closeCode = 1001 ∨ closeCode = 1006 ∨ closeCode = 4000 ∨
     closeCode = 4001 ∨ closeCode = 4002 ∨ closeCode = 4005 ∨ closeCode = 4008 ∨
     closeCode = 4009 ∨ closeCode = 4003 ∨ closeCode = 4007 ∨ closeCode = 4010 ∨
     closeCode = 4011 ∨ closeCode = 4012 ∨ closeCode = 4013 ∨ closeCode = 4014 then
    true
  else if closeCode = 4004 then
    false
  else
    true

/-- Resumability classification from `SimpleConnectionManager.canResumeSession`.
The `switch` has two fall-through groups returning `false` (4007, 4009 and
4003, 4010, 4011, 4012, 4013, 4014) and a `default` returning `true`. -/
def canResumeSession (closeCode : Nat) : Bool :=
  if closeCode = 4007 ∨ closeCode = 4009 then
    false
  else if closeCode = 4003 ∨ closeCode = 4010 ∨ closeCode = 4011 ∨
          closeCode = 4012 ∨ closeCode = 4013 ∨ closeCode = 4014 then
    false
  else
    true

/-- Reconnect delay from `SimpleConnectionManager.getReconnectDelay`:
10 seconds for rate-limit closures (4008), 5 seconds for session timeout
(4009), 2 seconds otherwise.  Rendered in milliseconds. -/
def getReconnectDelayMs (closeCode : Nat) : Nat :=
  if closeCode = 4008 then 10000
  else if closeCode = 4009 then 5000
  else 2000

/-! ## Exponential-backoff retry (src/services/SimpleConnectionManager.ts)

`withExponentialBackoff` builds a schedule
`exponential(base) |> either(spaced(max)) |> compose(recurs(maxAttempts - 1)) |> jittered`
and applies `Effect.retry` to the wrapped effect.  The `either`/`jittered`
stages only shape the delays between attempts; `recurs(maxAttempts - 1)`
bounds the number of retries, so the operation is executed at most
`maxAttempts` times and the error of the last execution is surfaced.  The
embedding indexes attempts by `Nat` (the outcome of attempt `i` is `op i`) and
returns the number of invocations together with the final result. -/

/-- Retry loop underlying `withExponentialBackoff`: run attempt `attempt`;
on success stop, on failure retry while `retriesLeft` permits.  The first
component of the result is the total number of invocations performed. -/
def retryRun {E A : Type} (op : Nat → Except E A) :
    (attempt : Nat) → (retriesLeft : Nat) → Nat × Except E A
  | attempt, 0 =>
    match op attempt with
    | Except.ok a => (attempt + 1, Except.ok a)
    | Except.error e => (attempt + 1, Except.error e)
  | attempt, Nat.succ n =>
    match op attempt with
    | Except.ok a => (attempt + 1, Except.ok a)
    | Except.error _ => retryRun op (attempt + 1) n

/-- `SimpleConnectionManager.withExponentialBackoff` with the delay schedule
erased: at most `maxAttempts - 1` retries after the initial execution. -/
def withExponentialBackoff {E A : Type} (op : Nat → Except E A)
    (maxAttempts : Nat := 5) : Nat × Except E A :=
  retryRun op 0 (maxAttempts - 1)

/-- `DiscordGatewayService.connectWithBackoff` wraps the connect effect with
`withExponentialBackoff(connect(), 10, '1 second', '120 seconds')`. -/
def connectWithBackoff {E A : Type} (op : Nat → Except E A) : Nat × Except E A :=
  withExponentialBackoff op 10

/-! ## Circuit breaker (src/services/ErrorRecovery.ts)

`ErrorRecovery.withCircuitBreaker` keeps `consecutiveFailures` and
`lastFailureTime` in closure variables and returns an `Effect.gen` that, on
each execution: fails fast with the string `'Circuit breaker is open'` when
`consecutiveFailures >= failureThreshold` and the 30000 ms cooldown has not
elapsed; resets `consecutiveFailures` to 0 when the cooldown has elapsed; then
runs the wrapped effect inside a JS `try`/`catch`.  In `Effect.gen` a failure
of a yielded effect does not raise a JS exception into the generator, so the
`catch` block (which would increment `consecutiveFailures` and set
`lastFailureTime`) is dead code: on failure of the wrapped effect the closure
state is left unchanged and the error propagates.  On success
`consecutiveFailures` is reset to 0.  The embedding makes the closure state
and the invocation of the wrapped operation explicit. -/

/-- Closure state of one `withCircuitBreaker` call site. -/
structure CircuitBreakerState where
  consecutiveFailures : Nat
  lastFailureTime : Int
  deriving DecidableEq

/-- Outcome of one execution of the wrapped effect. -/
inductive CircuitBreakerResult (E A : Type) where
  | failedFast (message : String)
  | opSucceeded (a : A)
  | opFailed (e : E)
  deriving DecidableEq

/-- Result of one execution: successor closure state, whether the wrapped
operation was invoked, and the outcome. -/
structure CircuitBreakerStep (E A : Type) where
  state : CircuitBreakerState
  invokedOperation : Bool
  result : CircuitBreakerResult E A
  deriving DecidableEq

/-- Body shared by the two paths of `withCircuitBreaker` that reach the
`try` block: run the wrapped effect; on success reset `consecutiveFailures`
to 0; on failure the `catch` block never runs, so the state is unchanged. -/
def circuitBreakerRunOp {E A : Type} (st : CircuitBreakerState)
    (op : Except E A) : CircuitBreakerStep E A :=
  match op with
  | Except.ok a =>
    { state := { st with consecutiveFailures := 0 },
      invokedOperation := true,
      result := CircuitBreakerResult.opSucceeded a }
  | Except.error e =>
    { state := st,
      invokedOperation := true,
      result := CircuitBreakerResult.opFailed e }

/-- One execution of the effect returned by `ErrorRecovery.withCircuitBreaker`
with threshold `failureThreshold`, at wall-clock time `now`, where the wrapped
effect would produce `op`. -/
def withCircuitBreakerStep {E A : Type} (failureThreshold : Nat)
    (st : CircuitBreakerState) (now : Int) (op : Except E A) :
    CircuitBreakerStep E A :=
  if failureThreshold ≤ st.consecutiveFailures then
    if now - st.lastFailureTime < 30000 then
      { state := st,
        invokedOperation := false,
        result := CircuitBreakerResult.failedFast "Circuit breaker is open" }
    else
      circuitBreakerRunOp { st with consecutiveFailures := 0 } op
  else
    circuitBreakerRunOp st op

/-- Iterate `withCircuitBreakerStep` over a list of calls, each given by its
wall-clock time and the outcome the wrapped effect would produce. -/
def runCircuitBreaker {E A : Type} (failureThreshold : Nat)
    (st : CircuitBreakerState) :
    List (Int × Except E A) → CircuitBreakerState × List (CircuitBreakerStep E A)
  | [] => (st, [])
  | (now, op) :: rest =>
    let step := withCircuitBreakerStep failureThreshold st now op
    let tail := runCircuitBreaker failureThreshold step.state rest
    (tail.1, step :: tail.2)

/-- Whether a step failed fast (the circuit-breaker-open branch). -/
def CircuitBreakerStep.failedFastStep {E A : Type}
    (s : CircuitBreakerStep E A) : Bool :=
  match s.result with
  | CircuitBreakerResult.failedFast _ => true
  | _ => false

/-! ## Gateway session (src/services/DiscordGatewayService.ts)

The gateway session forks two stream consumers over one `WebSocketConnection`:
`messageHandler` (one step per inbound frame) and `stateHandler` (one step per
connection-state change), plus, once a Hello arrives, a heartbeat loop on its
own timer.  The embedding gives each a step function over the session state
`GatewayState` (the record held in `stateRef`), emitting a trace of
`GatewayAction`s: `Ref` sequence updates, `Queue.offer`s onto the event queue,
`connection.send`s, heartbeat-loop starts, and `connection.close`s.

Frame decoding: `messageHandler` decodes `msg.data` with
`Schema.parseJson(Schema.Any)`; only JSON parsing can fail (the schema accepts
anything).  A text frame is therefore embedded as carrying the decode outcome
`Except ParseError GatewayReceivePayload` of its JSON string directly. -/

/-- Decode failure of `Schema.parseJson` on a text frame's data. -/
inductive ParseError where
  | malformedJson (input : String)
  deriving DecidableEq

/-- Fields of a Dispatch payload's `d` object that the handler reads:
`session_id` (READY) and `type` (INTERACTION_CREATE); remaining content is
irrelevant to the handler and elided. -/
structure DispatchD where
  session_id : String
  type : Int
  deriving DecidableEq

/-- Decoded `GatewayReceivePayload`, one constructor per opcode the handler's
`switch` distinguishes; `unknownOp` stands for every other opcode (including
remote-initiated Heartbeat), which falls through the `switch` unhandled.  The
handler reads `payload.s` generically before the `switch`, so every
constructor carries the optional sequence number. -/
inductive GatewayReceivePayload where
  | hello (s : Option Int) (heartbeat_interval : Int)
  | dispatch (s : Option Int) (t : String) (d : DispatchD)
  | heartbeatAck (s : Option Int)
  | reconnect (s : Option Int)
  | invalidSession (s : Option Int)
  | unknownOp (s : Option Int)
  deriving DecidableEq

/-- The `s` field read by `if ('s' in payload && payload.s !== null)`. -/
def GatewayReceivePayload.s : GatewayReceivePayload → Option Int
  | GatewayReceivePayload.hello s _ => s
  | GatewayReceivePayload.dispatch s _ _ => s
  | GatewayReceivePayload.heartbeatAck s => s
  | GatewayReceivePayload.reconnect s => s
  | GatewayReceivePayload.invalidSession s => s
  | GatewayReceivePayload.unknownOp s => s

/-- Inbound frame as delivered by `WebSocketService` (`connectedWs.on('message')`):
binary frames become `WebSocketBinaryMessage` (payload size abstracted), text
frames become `WebSocketTextMessage` whose JSON decode outcome is `decoded`. -/
inductive WebSocketMessage where
  | textMessage (decoded : Except ParseError GatewayReceivePayload)
  | binaryMessage (size : Nat)

/-- Typed domain events offered onto the event queue (`DiscordEvent`). -/
inductive DiscordEvent where
  | gatewayEvent (payload : GatewayReceivePayload)
  | messageEvent (message : DispatchD)
  | interactionEvent (interaction : DispatchD)
  deriving DecidableEq

/-- Payloads the session sends on the socket: `identify` (op 2, credential +
intents + properties, all static) and `heartbeat` (op 1, `d` = last seq). -/
inductive SentPayload where
  | identify
  | heartbeat (d : Option Int)
  deriving DecidableEq

/-- Observable actions of the session, in program order. -/
inductive GatewayAction where
  | recordSeq (v : Int)
  | enqueue (event : DiscordEvent)
  | send (p : SentPayload)
  | startHeartbeatLoop (interval : Int)
  | closeConnection (code : Nat) (reason : String)
  | queueShutdown
  deriving DecidableEq

/-- The mutable record held in `stateRef` (`interface GatewayState`). -/
structure GatewayState where
  seq : Option Int
  sessionId : Option String
  heartbeatInterval : Option Int
  heartbeatAcknowledged : Bool
  deriving DecidableEq

/-- Initial value passed to `Ref.make` on connect. -/
def initialGatewayState : GatewayState :=
  { seq := none, sessionId := none, heartbeatInterval := none,
    heartbeatAcknowledged := true }

/-- Sequence-number update performed before the opcode `switch`:
`if ('s' in payload && payload.s !== null) Ref.update(... seq: payload.s)`. -/
def recordSeqState (st : GatewayState) (s : Option Int) : GatewayState :=
  match s with
  | some v => { st with seq := some v }
  | none => st

/-- Trace emitted by the sequence-number update. -/
def recordSeqActions (s : Option Int) : List GatewayAction :=
  match s with
  | some v => [GatewayAction.recordSeq v]
  | none => []

/-- Queue offers performed by the Dispatch case for the typed events: READY
records the session id (no typed event), MESSAGE_CREATE enqueues a
`DiscordMessageEvent`, INTERACTION_CREATE enqueues a `DiscordInteractionEvent`
only for slash commands (`interaction.type === 2`). -/
def dispatchTypedActions (t : String) (d : DispatchD) : List GatewayAction :=
  if t = "READY" then []
  else if t = "MESSAGE_CREATE" then
    [GatewayAction.enqueue (DiscordEvent.messageEvent d)]
  else if t = "INTERACTION_CREATE" then
    if d.type = 2 then [GatewayAction.enqueue (DiscordEvent.interactionEvent d)]
    else []
  else []

/-- State change performed by the Dispatch case (READY stores `session_id`). -/
def dispatchState (st : GatewayState) (t : String) (d : DispatchD) : GatewayState :=
  if t = "READY" then { st with sessionId := some d.session_id } else st

/-- One step of `messageHandler` (the body of `Stream.runForEach` over
`connection.messages`): non-text frames return immediately; text frames are
JSON-decoded (a decode failure fails the step's effect), the sequence number
is recorded, then the opcode `switch` runs.  The Hello case stores the
heartbeat interval, forks the heartbeat loop, then sends Identify; the
Dispatch case enqueues the typed event and then the generic
`DiscordGatewayEvent`; HeartbeatAck sets the ack flag; Reconnect closes with
1000, InvalidSession closes with 4000; other opcodes fall through. -/
def messageHandlerStep (st : GatewayState) (msg : WebSocketMessage) :
    Except ParseError (GatewayState × List GatewayAction) :=
  match msg with
  | WebSocketMessage.binaryMessage _ => Except.ok (st, [])
  | WebSocketMessage.textMessage (Except.error e) => Except.error e
  | WebSocketMessage.textMessage (Except.ok payload) =>
    let st1 := recordSeqState st payload.s
    let seqActs := recordSeqActions payload.s
    match payload with
    | GatewayReceivePayload.hello _ interval =>
      Except.ok ({ st1 with heartbeatInterval := some interval },
        seqActs ++ [GatewayAction.startHeartbeatLoop interval,
                    GatewayAction.send SentPayload.identify])
    | GatewayReceivePayload.dispatch _ t d =>
      Except.ok (dispatchState st1 t d,
        seqActs ++ dispatchTypedActions t d ++
          [GatewayAction.enqueue (DiscordEvent.gatewayEvent payload)])
    | GatewayReceivePayload.heartbeatAck _ =>
      Except.ok ({ st1 with heartbeatAcknowledged := true }, seqActs)
    | GatewayReceivePayload.reconnect _ =>
      Except.ok (st1, seqActs ++ [GatewayAction.closeConnection 1000 "Reconnect requested"])
    | GatewayReceivePayload.invalidSession _ =>
      Except.ok (st1, seqActs ++ [GatewayAction.closeConnection 4000 "Invalid session"])
    | GatewayReceivePayload.unknownOp _ =>
      Except.ok (st1, seqActs)

/-- `Stream.runForEach(connection.messages, ...)`: frames are processed
strictly in order; if a step's effect fails, `runForEach` fails with that
error and the remaining frames are never processed (the forked
`messageHandler` fiber ends).  Returns the final session state, the emitted
trace, and the error that ended the loop, if any. -/
def runMessageHandler (st : GatewayState) :
    List WebSocketMessage → GatewayState × List GatewayAction × Option ParseError
  | [] => (st, [], none)
  | msg :: rest =>
    match messageHandlerStep st msg with
    | Except.error e => (st, [], some e)
    | Except.ok (st1, acts) =>
      let tail := runMessageHandler st1 rest
      (tail.1, acts ++ tail.2.1, tail.2.2)

/-! ### Connection-state handler -/

/-- Connection-state values published by `WebSocketService`
(`Data.TaggedEnum WebSocketState`). -/
inductive WebSocketStateValue where
  | connecting
  | connected
  | disconnected (code : Nat) (reason : String)
  | failed
  deriving DecidableEq

/-- One step of `stateHandler` (the body of `Stream.runForEach` over
`connection.state`): on `Disconnected`, when `shouldReconnect(code)` holds the
event queue is shut down to signal disconnection, otherwise the code is logged
as fatal and the queue is left alone; on `Failed` the queue is shut down;
`Connecting`/`Connected` are not matched. -/
def stateHandlerStep (state : WebSocketStateValue) : List GatewayAction :=
  match state with
  | WebSocketStateValue.disconnected code _ =>
    if shouldReconnect code then [GatewayAction.queueShutdown] else []
  | WebSocketStateValue.failed => [GatewayAction.queueShutdown]
  | _ => []

/-! ### Heartbeat loop and interleaved session runs

`startHeartbeat` forks (`Effect.forkDaemon`) a loop that repeats on
`Schedule.fixed(interval)`: each cycle reads the current `stateRef`, warns if
the previous heartbeat was not acknowledged, sends a heartbeat whose `d` is
the state's current `seq`, and clears `heartbeatAcknowledged`.

The runtime schedules fibers cooperatively: a fiber runs until a suspension
point, and the `messageHandler` step for one frame contains none between its
`Ref` reads/updates and its sends, so heartbeat cycles interleave with frame
processing only at frame boundaries.  A session run is therefore a list of
`SessionEvent`s — inbound frames and heartbeat-timer ticks — folded in order.
A tick fires a heartbeat cycle only once a Hello has started the loop; frames
after a decode failure are not processed (the `messageHandler` fiber has
ended), while the independently forked heartbeat loop keeps running. -/

/-- One heartbeat cycle: send `{op: Heartbeat, d: state.seq}` reading the
state at send time, then set `heartbeatAcknowledged := false`. -/
def heartbeatCycle (st : GatewayState) : GatewayState × List GatewayAction :=
  ({ st with heartbeatAcknowledged := false },
   [GatewayAction.send (SentPayload.heartbeat st.seq)])

/-- Events driving one session run. -/
inductive SessionEvent where
  | inbound (msg : WebSocketMessage)
  | tick

/-- State of a session run: the shared `stateRef` record, whether a heartbeat
loop has been forked, and the error that ended the `messageHandler` fiber, if
any. -/
structure SessionState where
  gw : GatewayState
  heartbeatOn : Bool
  loopError : Option ParseError

/-- Session state right after `connect` (before any frame). -/
def initialSessionState : SessionState :=
  { gw := initialGatewayState, heartbeatOn := false, loopError := none }

/-- Whether an action forks the heartbeat loop. -/
def GatewayAction.isStartHeartbeat : GatewayAction → Bool
  | GatewayAction.startHeartbeatLoop _ => true
  | GatewayAction.recordSeq _ => false
  | GatewayAction.enqueue _ => false
  | GatewayAction.send _ => false
  | GatewayAction.closeConnection _ _ => false
  | GatewayAction.queueShutdown => false

/-- One step of a session run. -/
def sessionStep (s : SessionState) (e : SessionEvent) :
    SessionState × List GatewayAction :=
  match e with
  | SessionEvent.tick =>
    if s.heartbeatOn then
      let r := heartbeatCycle s.gw
      ({ s with gw := r.1 }, r.2)
    else (s, [])
  | SessionEvent.inbound msg =>
    match s.loopError with
    | some _ => (s, [])
    | none =>
      match messageHandlerStep s.gw msg with
      | Except.error e => ({ s with loopError := some e }, [])
      | Except.ok (gw1, acts) =>
        let hb := s.heartbeatOn || acts.any GatewayAction.isStartHeartbeat
        ({ s with gw := gw1, heartbeatOn := hb }, acts)

/-- Fold a session run over its events, collecting the emitted trace. -/
def runSession (s : SessionState) : List SessionEvent → SessionState × List GatewayAction
  | [] => (s, [])
  | e :: es =>
    let r := sessionStep s e
    let tail := runSession r.1 es
    (tail.1, r.2 ++ tail.2)

/-! ### Trace predicates -/

/-- Last sequence number recorded along a trace, starting from `cur`. -/
def seqAlong (cur : Option Int) : List GatewayAction → Option Int
  | [] => cur
  | GatewayAction.recordSeq v :: rest => seqAlong (some v) rest
  | _ :: rest => seqAlong cur rest

/-- Check, along a trace, that every heartbeat sent carries exactly the most
recently recorded sequence number at that point (starting from `cur`). -/
def heartbeatsCarryLatest (cur : Option Int) : List GatewayAction → Bool
  | [] => true
  | GatewayAction.recordSeq v :: rest => heartbeatsCarryLatest (some v) rest
  | GatewayAction.send (SentPayload.heartbeat d) :: rest =>
    (d == cur) && heartbeatsCarryLatest cur rest
  | _ :: rest => heartbeatsCarryLatest cur rest

/-- Whether an action is the Identify send. -/
def GatewayAction.isIdentifySend : GatewayAction → Bool
  | GatewayAction.send SentPayload.identify => true
  | GatewayAction.send (SentPayload.heartbeat _) => false
  | GatewayAction.recordSeq _ => false
  | GatewayAction.enqueue _ => false
  | GatewayAction.startHeartbeatLoop _ => false
  | GatewayAction.closeConnection _ _ => false
  | GatewayAction.queueShutdown => false

/-- Whether an action is a heartbeat send. -/
def GatewayAction.isHeartbeatSend : GatewayAction → Bool
  | GatewayAction.send (SentPayload.heartbeat _) => true
  | GatewayAction.send SentPayload.identify => false
  | GatewayAction.recordSeq _ => false
  | GatewayAction.enqueue _ => false
  | GatewayAction.startHeartbeatLoop _ => false
  | GatewayAction.closeConnection _ _ => false
  | GatewayAction.queueShutdown => false

/-- Check, along a trace, that every heartbeat send is preceded by an
Identify send; `seen` records whether an Identify has occurred already. -/
def identifyBeforeHeartbeat (seen : Bool) : List GatewayAction → Bool
  | [] => true
  | GatewayAction.send SentPayload.identify :: rest => identifyBeforeHeartbeat true rest
  | GatewayAction.send (SentPayload.heartbeat _) :: rest =>
    seen && identifyBeforeHeartbeat seen rest
  | _ :: rest => identifyBeforeHeartbeat seen rest

/-- Value of the `seen` flag after a trace. -/
def identifySeenAfter (seen : Bool) : List GatewayAction → Bool
  | [] => seen
  | GatewayAction.send SentPayload.identify :: rest => identifySeenAfter true rest
  | _ :: rest => identifySeenAfter seen rest

/-- Whether a session event is a well-formed frame or a tick (a text frame
whose JSON decode fails is the only ill-formed event). -/
def SessionEvent.frameOk : SessionEvent → Bool
  | SessionEvent.inbound (WebSocketMessage.textMessage (Except.error _)) => false
  | SessionEvent.inbound (WebSocketMessage.textMessage (Except.ok _)) => true
  | SessionEvent.inbound (WebSocketMessage.binaryMessage _) => true
  | SessionEvent.tick => true

/-- Whether a decoded payload is a Hello. -/
def GatewayReceivePayload.isHello : GatewayReceivePayload → Bool
  | GatewayReceivePayload.hello _ _ => true
  | GatewayReceivePayload.dispatch _ _ _ => false
  | GatewayReceivePayload.heartbeatAck _ => false
  | GatewayReceivePayload.reconnect _ => false
  | GatewayReceivePayload.invalidSession _ => false
  | GatewayReceivePayload.unknownOp _ => false

/-- Whether a session event is a successfully decoded Hello frame. -/
def SessionEvent.isHelloFrame : SessionEvent → Bool
  | SessionEvent.inbound (WebSocketMessage.textMessage (Except.ok p)) => p.isHello
  | SessionEvent.inbound (WebSocketMessage.textMessage (Except.error _)) => false
  | SessionEvent.inbound (WebSocketMessage.binaryMessage _) => false
  | SessionEvent.tick => false

/-! ### Concrete inputs used to exercise the model -/

/-- A text frame whose data is not valid JSON: `Schema.parseJson` fails. -/
def malformedFrame : WebSocketMessage :=
  WebSocketMessage.textMessage (Except.error (ParseError.malformedJson "not valid json"))

/-- The `d` object of a sample MESSAGE_CREATE dispatch. -/
def sampleDispatchD : DispatchD :=
  { session_id := "", type := 0 }

/-- The payload of a sample MESSAGE_CREATE dispatch carrying sequence 7. -/
def sampleDispatchPayload : GatewayReceivePayload :=
  GatewayReceivePayload.dispatch (some 7) "MESSAGE_CREATE" sampleDispatchD

/-- A well-formed MESSAGE_CREATE dispatch frame. -/
def sampleDispatchFrame : WebSocketMessage :=
  WebSocketMessage.textMessage (Except.ok sampleDispatchPayload)

/-- A Hello frame carrying a 41250 ms heartbeat interval. -/
def helloFrame : WebSocketMessage :=
  WebSocketMessage.textMessage (Except.ok (GatewayReceivePayload.hello none 41250))

/-- The `d` object of an INTERACTION_CREATE dispatch whose interaction type is
3 (a message-component interaction, not a slash command). -/
def type3InteractionD : DispatchD :=
  { session_id := "", type := 3 }

/-- An INTERACTION_CREATE dispatch payload with interaction type 3. -/
def type3InteractionPayload : GatewayReceivePayload :=
  GatewayReceivePayload.dispatch none "INTERACTION_CREATE" type3InteractionD

/-- A session run: Hello, a heartbeat tick, then a MESSAGE_CREATE dispatch. -/
def demoSessionEvents : List SessionEvent :=
  [SessionEvent.inbound helloFrame, SessionEvent.tick,
   SessionEvent.inbound sampleDispatchFrame, SessionEvent.tick]

/-- The `d` object of an INTERACTION_CREATE dispatch for a slash command
(`interaction.type === 2`). -/
def type2InteractionD : DispatchD :=
  { session_id := "", type := 2 }

/-- Four consecutive failing calls through one circuit-breaker call site. -/
def demoBreakerCalls : List (Int × Except Unit Unit) :=
  [(0, Except.error ()), (1, Except.error ()), (2, Except.error ()),
   (3, Except.error ())]

/-- Whether a handler step succeeded. -/
def handlerOk (r : Except ParseError (GatewayState × List GatewayAction)) : Bool :=
  match r with
  | Except.ok _ => true
  | Except.error _ => false

/-- Trace of a successful handler step (empty when the step failed). -/
def handlerActions (r : Except ParseError (GatewayState × List GatewayAction)) :
    List GatewayAction :=
  match r with
  | Except.ok pr => pr.2
  | Except.error _ => []

/-! ## Helper lemmas -/

/-- The only close code classified as non-reconnectable is 4004. -/
theorem shouldReconnect_false_iff (closeCode : Nat) :
    shouldReconnect closeCode = false ↔ closeCode = 4004 := by
  unfold shouldReconnect
  split_ifs with h1 h2
  · simp only [Bool.true_eq_false, false_iff]
    omega
  · simp [h2]
  · simp only [Bool.true_eq_false, false_iff]
    exact h2

/-- When every attempt fails, the retry loop performs every remaining attempt
and surfaces the error of the last one. -/
theorem retryRun_all_fail {E A : Type} (op : Nat → Except E A) (errs : Nat → E)
    (hfail : ∀ i, op i = Except.error (errs i)) :
    ∀ retriesLeft attempt,
      retryRun op attempt retriesLeft =
        (attempt + retriesLeft + 1, Except.error (errs (attempt + retriesLeft))) := by
  intro retriesLeft
  induction retriesLeft with
  | zero =>
    intro attempt
    simp only [retryRun, hfail attempt, Nat.add_zero]
  | succ n ih =>
    intro attempt
    simp only [retryRun, hfail attempt]
    rw [ih (attempt + 1)]
    have heq : attempt + 1 + n = attempt + (n + 1) := by omega
    rw [heq]

/-- A circuit-breaker step from a state with no recorded failures always
invokes the wrapped operation, never fails fast, and again records no
failures (the `catch` that would count them is unreachable). -/
theorem circuitBreakerStep_zero {E A : Type} (failureThreshold : Nat)
    (h : 1 ≤ failureThreshold) (st : CircuitBreakerState)
    (hst : st.consecutiveFailures = 0) (now : Int) (op : Except E A) :
    (withCircuitBreakerStep failureThreshold st now op).invokedOperation = true ∧
    (withCircuitBreakerStep failureThreshold st now op).failedFastStep = false ∧
    (withCircuitBreakerStep failureThreshold st now op).state.consecutiveFailures = 0 := by
  unfold withCircuitBreakerStep
  rw [if_neg (by omega)]
  cases op <;>
    simp [circuitBreakerRunOp, CircuitBreakerStep.failedFastStep, hst]

theorem seqAlong_append (cur : Option Int) (xs ys : List GatewayAction) :
    seqAlong cur (xs ++ ys) = seqAlong (seqAlong cur xs) ys := by
  induction xs generalizing cur with
  | nil => rfl
  | cons a rest ih => cases a <;> simp [seqAlong, ih]

theorem heartbeatsCarryLatest_append (cur : Option Int) (xs ys : List GatewayAction) :
    heartbeatsCarryLatest cur (xs ++ ys) =
      (heartbeatsCarryLatest cur xs && heartbeatsCarryLatest (seqAlong cur xs) ys) := by
  induction xs generalizing cur with
  | nil => simp [heartbeatsCarryLatest, seqAlong]
  | cons a rest ih =>
    cases a with
    | recordSeq v => simp [heartbeatsCarryLatest, seqAlong, ih]
    | send p =>
      cases p with
      | identify => simp [heartbeatsCarryLatest, seqAlong, ih]
      | heartbeat d => simp [heartbeatsCarryLatest, seqAlong, ih, Bool.and_assoc]
    | enqueue ev => simp [heartbeatsCarryLatest, seqAlong, ih]
    | startHeartbeatLoop i => simp [heartbeatsCarryLatest, seqAlong, ih]
    | closeConnection c r => simp [heartbeatsCarryLatest, seqAlong, ih]
    | queueShutdown => simp [heartbeatsCarryLatest, seqAlong, ih]

theorem identifySeenAfter_append (b : Bool) (xs ys : List GatewayAction) :
    identifySeenAfter b (xs ++ ys) = identifySeenAfter (identifySeenAfter b xs) ys := by
  induction xs generalizing b with
  | nil => rfl
  | cons a rest ih =>
    cases a with
    | send p => cases p <;> simp [identifySeenAfter, ih]
    | recordSeq v => simp [identifySeenAfter, ih]
    | enqueue ev => simp [identifySeenAfter, ih]
    | startHeartbeatLoop i => simp [identifySeenAfter, ih]
    | closeConnection c r => simp [identifySeenAfter, ih]
    | queueShutdown => simp [identifySeenAfter, ih]

theorem identifyBeforeHeartbeat_append (b : Bool) (xs ys : List GatewayAction) :
    identifyBeforeHeartbeat b (xs ++ ys) =
      (identifyBeforeHeartbeat b xs &&
       identifyBeforeHeartbeat (identifySeenAfter b xs) ys) := by
  induction xs generalizing b with
  | nil => simp [identifyBeforeHeartbeat, identifySeenAfter]
  | cons a rest ih =>
    cases a with
    | send p =>
      cases p with
      | identify => simp [identifyBeforeHeartbeat, identifySeenAfter, ih]
      | heartbeat d =>
        simp [identifyBeforeHeartbeat, identifySeenAfter, ih, Bool.and_assoc]
    | recordSeq v => simp [identifyBeforeHeartbeat, identifySeenAfter, ih]
    | enqueue ev => simp [identifyBeforeHeartbeat, identifySeenAfter, ih]
    | startHeartbeatLoop i => simp [identifyBeforeHeartbeat, identifySeenAfter, ih]
    | closeConnection c r => simp [identifyBeforeHeartbeat, identifySeenAfter, ih]
    | queueShutdown => simp [identifyBeforeHeartbeat, identifySeenAfter, ih]

/-- Facts about one successful `messageHandler` step: the state's sequence
number after the step is the one recorded along its trace; its trace respects
the heartbeat-freshness discipline; it sends exactly one Identify when the
frame is a Hello and none otherwise; it sends no heartbeat; and it leaves the
identify-seen flag set exactly when it was set or the step forked the
heartbeat loop. -/
theorem messageHandlerStep_facts (st : GatewayState) (msg : WebSocketMessage)
    (st1 : GatewayState) (acts : List GatewayAction) (b : Bool)
    (h : messageHandlerStep st msg = Except.ok (st1, acts)) :
    st1.seq = seqAlong st.seq acts ∧
    heartbeatsCarryLatest st.seq acts = true ∧
    (acts.filter GatewayAction.isIdentifySend).length =
      (if SessionEvent.isHelloFrame (SessionEvent.inbound msg) then 1 else 0) ∧
    identifyBeforeHeartbeat b acts = true ∧
    identifySeenAfter b acts = (b || acts.any GatewayAction.isStartHeartbeat) := by
  cases msg with
  | binaryMessage size =>
    simp only [messageHandlerStep, Except.ok.injEq, Prod.mk.injEq] at h
    obtain ⟨h1, h2⟩ := h
    subst h1
    subst h2
    simp [seqAlong, heartbeatsCarryLatest, identifyBeforeHeartbeat, identifySeenAfter,
          SessionEvent.isHelloFrame]
  | textMessage dec =>
    cases dec with
    | error e => simp [messageHandlerStep] at h
    | ok payload =>
      rcases payload with ⟨s, interval⟩ | ⟨s, t, d⟩ | s | s | s | s <;>
        rcases s with _ | v <;>
        simp only [messageHandlerStep, GatewayReceivePayload.s, recordSeqState,
          recordSeqActions, List.cons_append, List.nil_append, Except.ok.injEq,
          Prod.mk.injEq] at h <;>
        obtain ⟨h1, h2⟩ := h <;>
        subst h1 <;> subst h2 <;>
        (try unfold dispatchState dispatchTypedActions) <;>
        split_ifs <;>
        simp_all [seqAlong, heartbeatsCarryLatest, identifyBeforeHeartbeat,
          identifySeenAfter, SessionEvent.isHelloFrame, GatewayReceivePayload.isHello,
          GatewayAction.isIdentifySend, GatewayAction.isStartHeartbeat, List.filter]


/-- A `messageHandler` step fails only on a text frame whose JSON is
malformed. -/
theorem messageHandlerStep_error_frame (st : GatewayState) (msg : WebSocketMessage)
    (e : ParseError) (h : messageHandlerStep st msg = Except.error e) :
    SessionEvent.frameOk (SessionEvent.inbound msg) = false := by
  cases msg with
  | binaryMessage size => simp [messageHandlerStep] at h
  | textMessage dec =>
    cases dec with
    | error e2 => rfl
    | ok payload => cases payload <;> simp [messageHandlerStep] at h

/-- A step on a non-Hello frame sends no Identify. -/
theorem no_identify_when_not_hello (st : GatewayState) (msg : WebSocketMessage)
    (st1 : GatewayState) (acts : List GatewayAction)
    (h : messageHandlerStep st msg = Except.ok (st1, acts))
    (hnot : SessionEvent.isHelloFrame (SessionEvent.inbound msg) = false)
    (hid : acts.any GatewayAction.isIdentifySend = true) : False := by
  have hf := messageHandlerStep_facts st msg st1 acts false h
  have hzero := hf.2.2.1
  rw [hnot] at hzero
  simp only [Bool.false_eq_true, if_false] at hzero
  rw [List.length_eq_zero] at hzero
  rw [List.any_eq_true] at hid
  obtain ⟨x, hxmem, hxp⟩ := hid
  have hxf : x ∈ acts.filter GatewayAction.isIdentifySend :=
    List.mem_filter.mpr ⟨hxmem, hxp⟩
  rw [hzero] at hxf
  cases hxf

/-- The Hello case is the only source of an Identify send: a step whose trace
contains one was processing a Hello frame. -/
theorem identify_only_from_hello (st : GatewayState) (msg : WebSocketMessage)
    (st1 : GatewayState) (acts : List GatewayAction)
    (h : messageHandlerStep st msg = Except.ok (st1, acts))
    (hid : acts.any GatewayAction.isIdentifySend = true) :
    ∃ so hi, msg = WebSocketMessage.textMessage
      (Except.ok (GatewayReceivePayload.hello so hi)) := by
  cases msg with
  | binaryMessage size =>
    exact (no_identify_when_not_hello st _ st1 acts h rfl hid).elim
  | textMessage dec =>
    cases dec with
    | error e => simp [messageHandlerStep] at h
    | ok payload =>
      cases payload with
      | hello so hi => exact ⟨so, hi, rfl⟩
      | dispatch s t d =>
        exact (no_identify_when_not_hello st _ st1 acts h rfl hid).elim
      | heartbeatAck s =>
        exact (no_identify_when_not_hello st _ st1 acts h rfl hid).elim
      | reconnect s =>
        exact (no_identify_when_not_hello st _ st1 acts h rfl hid).elim
      | invalidSession s =>
        exact (no_identify_when_not_hello st _ st1 acts h rfl hid).elim
      | unknownOp s =>
        exact (no_identify_when_not_hello st _ st1 acts h rfl hid).elim

/-- Heartbeat freshness along a whole session run: the trace respects the
freshness discipline starting from the state's current sequence number, and
the final state's sequence number is the one recorded along the trace. -/
theorem runSession_seq (evts : List SessionEvent) : ∀ (s : SessionState),
    heartbeatsCarryLatest s.gw.seq (runSession s evts).2 = true ∧
    (runSession s evts).1.gw.seq = seqAlong s.gw.seq (runSession s evts).2 := by
  induction evts with
  | nil => intro s; exact ⟨rfl, rfl⟩
  | cons e rest ih =>
    intro s
    have hstep : heartbeatsCarryLatest s.gw.seq (sessionStep s e).2 = true ∧
        (sessionStep s e).1.gw.seq = seqAlong s.gw.seq (sessionStep s e).2 := by
      cases e with
      | tick =>
        by_cases hb : s.heartbeatOn <;>
          simp [sessionStep, hb, heartbeatCycle, heartbeatsCarryLatest, seqAlong]
      | inbound msg =>
        cases hle : s.loopError with
        | some e2 => simp [sessionStep, hle, heartbeatsCarryLatest, seqAlong]
        | none =>
          cases hm : messageHandlerStep s.gw msg with
          | error e2 => simp [sessionStep, hle, hm, heartbeatsCarryLatest, seqAlong]
          | ok pr =>
            obtain ⟨gw1, acts⟩ := pr
            have hf := messageHandlerStep_facts s.gw msg gw1 acts false hm
            constructor
            · simpa [sessionStep, hle, hm] using hf.2.1
            · simpa [sessionStep, hle, hm] using hf.1
    have hrest := ih (sessionStep s e).1
    constructor
    · simp only [runSession]
      rw [heartbeatsCarryLatest_append, hstep.1, ← hstep.2]
      simpa using hrest.1
    · simp only [runSession]
      rw [seqAlong_append, ← hstep.2]
      exact hrest.2

/-- Identify-before-heartbeat along a whole session run: provided the
identify-seen flag covers an already-running heartbeat loop, the run's trace
keeps every heartbeat send after an Identify send, and if the heartbeat loop
is running at the end, an Identify has been sent. -/
theorem runSession_identify_order (evts : List SessionEvent) :
    ∀ (s : SessionState) (b : Bool), (s.heartbeatOn = true → b = true) →
    identifyBeforeHeartbeat b (runSession s evts).2 = true ∧
    ((runSession s evts).1.heartbeatOn = true →
      identifySeenAfter b (runSession s evts).2 = true) := by
  induction evts with
  | nil => intro s b hb; exact ⟨rfl, fun h2 => hb h2⟩
  | cons e rest ih =>
    intro s b hb
    have hstep : identifyBeforeHeartbeat b (sessionStep s e).2 = true ∧
        ((sessionStep s e).1.heartbeatOn = true →
          identifySeenAfter b (sessionStep s e).2 = true) := by
      cases e with
      | tick =>
        by_cases hbOn : s.heartbeatOn
        · have hbtrue := hb hbOn
          simp [sessionStep, hbOn, heartbeatCycle, identifyBeforeHeartbeat,
            identifySeenAfter, hbtrue]
        · constructor
          · simp [sessionStep, hbOn, identifyBeforeHeartbeat]
          · intro h2
            simp only [sessionStep, hbOn, if_false] at h2
            simp only [sessionStep, hbOn, if_false, identifySeenAfter]
            exact hb h2
      | inbound msg =>
        cases hle : s.loopError with
        | some e2 =>
          constructor
          · simp [sessionStep, hle, identifyBeforeHeartbeat]
          · intro h2
            simp only [sessionStep, hle] at h2
            simp only [sessionStep, hle, identifySeenAfter]
            exact hb h2
        | none =>
          cases hm : messageHandlerStep s.gw msg with
          | error e2 =>
            constructor
            · simp [sessionStep, hle, hm, identifyBeforeHeartbeat]
            · intro h2
              simp only [sessionStep, hle, hm] at h2
              simp only [sessionStep, hle, hm, identifySeenAfter]
              exact hb h2
          | ok pr =>
            obtain ⟨gw1, acts⟩ := pr
            have hf := messageHandlerStep_facts s.gw msg gw1 acts b hm
            constructor
            · simpa [sessionStep, hle, hm] using hf.2.2.2.1
            · intro h2
              simp only [sessionStep, hle, hm] at h2 ⊢
              rw [hf.2.2.2.2]
              simp only [Bool.or_eq_true] at h2 ⊢
              rcases h2 with h2 | h2
              · exact Or.inl (hb h2)
              · exact Or.inr h2
    have hrest := ih (sessionStep s e).1 (identifySeenAfter b (sessionStep s e).2)
      hstep.2
    constructor
    · simp only [runSession]
      rw [identifyBeforeHeartbeat_append, hstep.1]
      simpa using hrest.1
    · intro hOn
      simp only [runSession] at hOn ⊢
      rw [identifySeenAfter_append]
      exact hrest.2 hOn

/-- Identify count along a whole session run: while the `messageHandler`
fiber is alive and every frame decodes, exactly one Identify is sent per
Hello frame. -/
theorem runSession_identify_count (evts : List SessionEvent) :
    ∀ (s : SessionState), s.loopError = none →
    (∀ e ∈ evts, SessionEvent.frameOk e = true) →
    ((runSession s evts).2.filter GatewayAction.isIdentifySend).length =
      (evts.filter SessionEvent.isHelloFrame).length := by
  induction evts with
  | nil => intro s hle hok; rfl
  | cons e rest ih =>
    intro s hle hok
    have hoktl : ∀ x ∈ rest, SessionEvent.frameOk x = true := by
      intro x hx
      exact hok x (List.mem_cons_of_mem _ hx)
    cases e with
    | tick =>
      have hles : (sessionStep s SessionEvent.tick).1.loopError = none := by
        by_cases hbOn : s.heartbeatOn <;> simp [sessionStep, hbOn, hle]
      have hrest := ih (sessionStep s SessionEvent.tick).1 hles hoktl
      have hacts : ((sessionStep s SessionEvent.tick).2.filter
          GatewayAction.isIdentifySend).length = 0 := by
        by_cases hbOn : s.heartbeatOn <;>
          simp [sessionStep, hbOn, heartbeatCycle, GatewayAction.isIdentifySend,
            List.filter]
      simp only [runSession]
      rw [List.filter_append, List.length_append, hacts, List.filter_cons, hrest]
      simp [SessionEvent.isHelloFrame]
    | inbound msg =>
      cases hm : messageHandlerStep s.gw msg with
      | error e2 =>
        have hbad := messageHandlerStep_error_frame s.gw msg e2 hm
        have hgood := hok (SessionEvent.inbound msg) (List.mem_cons_self _ _)
        rw [hbad] at hgood
        cases hgood
      | ok pr =>
        obtain ⟨gw1, acts⟩ := pr
        have hf := messageHandlerStep_facts s.gw msg gw1 acts false hm
        have hcount := hf.2.2.1
        have hrest := ih (sessionStep s (SessionEvent.inbound msg)).1 (by
          simp [sessionStep, hle, hm]) hoktl
        simp only [runSession]
        rw [List.filter_append, List.length_append, List.filter_cons, hrest]
        have hacts : (sessionStep s (SessionEvent.inbound msg)).2 = acts := by
          simp [sessionStep, hle, hm]
        rw [hacts, hcount]
        cases hv : SessionEvent.isHelloFrame (SessionEvent.inbound msg)
        · simp [hv]
        · simp only [hv, if_true, List.length_cons]
          omega

/-! ## Claim theorems -/

/-- C1: the claim says a frame whose payload fails to decode is skipped and
every subsequent frame is still processed.  The code has no error handling
around the decode, so the failing step fails `Stream.runForEach` and the
`messageHandler` fiber ends: on the input `[malformed frame, MESSAGE_CREATE
frame]` the run stops at the malformed frame with an empty trace — the
dispatch frame, which processed alone produces three actions, is never
processed. -/
theorem messageHandler_dies_on_malformed_frame :
    runMessageHandler initialGatewayState [malformedFrame, sampleDispatchFrame] =
      (initialGatewayState, [], some (ParseError.malformedJson "not valid json")) ∧
    runMessageHandler initialGatewayState [sampleDispatchFrame] =
      ({ initialGatewayState with seq := some 7 },
       [GatewayAction.recordSeq 7,
        GatewayAction.enqueue (DiscordEvent.messageEvent sampleDispatchD),
        GatewayAction.enqueue (DiscordEvent.gatewayEvent sampleDispatchPayload)],
       none) := by
  exact ⟨rfl, rfl⟩

/-- C2: `shouldReconnect` returns `false` exactly for the fatal
authentication-failed close code 4004 and `true` for every other close code,
known or unknown. -/
theorem shouldReconnect_spec (closeCode : Nat) :
    shouldReconnect closeCode = false ↔ closeCode = 4004 :=
  shouldReconnect_false_iff closeCode

/-- C3: the claim says three consecutive failures open the breaker and the
next call fails fast with `CircuitBreakerOpenError` without invoking the
operation.  In the code the `catch` block that counts failures cannot observe
`Effect` failures, so from a fresh breaker the failure counter stays 0: every
call of any sequence — in particular the fourth call after three failures —
invokes the wrapped operation, and no call ever fails fast. -/
theorem circuitBreaker_never_opens {E A : Type} (failureThreshold : Nat)
    (h : 1 ≤ failureThreshold) (calls : List (Int × Except E A)) :
    ((runCircuitBreaker failureThreshold
        { consecutiveFailures := 0, lastFailureTime := 0 } calls).2.all
      (fun s => s.invokedOperation && !s.failedFastStep)) = true := by
  suffices hgen : ∀ (cs : List (Int × Except E A)) (st : CircuitBreakerState),
      st.consecutiveFailures = 0 →
      ((runCircuitBreaker failureThreshold st cs).2.all
        (fun s => s.invokedOperation && !s.failedFastStep)) = true by
    exact hgen calls { consecutiveFailures := 0, lastFailureTime := 0 } rfl
  intro cs
  induction cs with
  | nil => intro st hst; rfl
  | cons c rest ih =>
    intro st hst
    obtain ⟨now, op⟩ := c
    have hstep := circuitBreakerStep_zero failureThreshold h st hst now op
    simp only [runCircuitBreaker, List.all_cons, Bool.and_eq_true]
    refine ⟨?_, ih _ hstep.2.2⟩
    rw [hstep.1, hstep.2.1]
    exact ⟨rfl, rfl⟩

/-- Witness for C3: threshold 3, four consecutive failing calls — every call,
including the fourth, invokes the operation, and none fails fast. -/
theorem circuitBreaker_never_opens_witness :
    ((runCircuitBreaker 3 { consecutiveFailures := 0, lastFailureTime := 0 }
        demoBreakerCalls).2.all
      (fun s => s.invokedOperation && !s.failedFastStep)) = true :=
  circuitBreaker_never_opens 3 (by decide) demoBreakerCalls

/-- C4: in a run of one physical connection whose frames all decode and which
receives exactly one Hello, exactly one Identify is sent, every heartbeat
send comes after the Identify send, and a handler step that sends an Identify
was processing a Hello frame (the Hello case is the only source of
Identify). -/
theorem hello_identify_protocol (evts : List SessionEvent)
    (hok : ∀ e ∈ evts, SessionEvent.frameOk e = true)
    (hone : (evts.filter SessionEvent.isHelloFrame).length = 1) :
    ((runSession initialSessionState evts).2.filter
      GatewayAction.isIdentifySend).length = 1 ∧
    identifyBeforeHeartbeat false (runSession initialSessionState evts).2 = true ∧
    ∀ (st st1 : GatewayState) (msg : WebSocketMessage) (acts : List GatewayAction),
      messageHandlerStep st msg = Except.ok (st1, acts) →
      acts.any GatewayAction.isIdentifySend = true →
      ∃ so hi, msg = WebSocketMessage.textMessage
        (Except.ok (GatewayReceivePayload.hello so hi)) := by
  refine ⟨?_, ?_, ?_⟩
  · rw [runSession_identify_count evts initialSessionState rfl hok]
    exact hone
  · exact (runSession_identify_order evts initialSessionState false
      (fun h2 => Bool.noConfusion h2)).1
  · intro st st1 msg acts hm hid
    exact identify_only_from_hello st msg st1 acts hm hid

/-- Witness for C4: a run with one Hello, two heartbeat ticks and one
dispatch sends exactly one Identify, before any heartbeat. -/
theorem hello_identify_protocol_witness :
    ((runSession initialSessionState demoSessionEvents).2.filter
      GatewayAction.isIdentifySend).length = 1 ∧
    identifyBeforeHeartbeat false (runSession initialSessionState demoSessionEvents).2 = true :=
  ⟨(hello_identify_protocol demoSessionEvents (by decide) (by decide)).1,
   (hello_identify_protocol demoSessionEvents (by decide) (by decide)).2.1⟩

/-- C5: along any session run from the initial state (no sequence recorded
yet), every heartbeat sent carries exactly the most recently recorded
sequence number as of its send instant — `null` while none has been
recorded, and never a stale or future value. -/
theorem heartbeat_carries_latest_seq (evts : List SessionEvent) :
    heartbeatsCarryLatest none (runSession initialSessionState evts).2 = true :=
  (runSession_seq evts initialSessionState).1

/-- C6 counterexample: the claim lists seven close codes on which
`canResumeSession` is false, omitting 4013 (invalid intents), on which the
code also returns false — so the claimed equivalence fails at 4013. -/
theorem canResumeSession_claim_counterexample :
    ¬ ∀ (closeCode : Nat), (canResumeSession closeCode = false ↔
        (closeCode = 4007 ∨ closeCode = 4009 ∨ closeCode = 4003 ∨
         closeCode = 4010 ∨ closeCode = 4011 ∨ closeCode = 4012 ∨
         closeCode = 4014)) := by
  intro hclaim
  have h13 := (hclaim 4013).mp (by decide)
  omega

/-- C6 (amended): `canResumeSession` returns false exactly for the eight
codes 4007, 4009, 4003, 4010, 4011, 4012, 4013 and 4014, and true for every
other code. -/
theorem canResumeSession_spec (closeCode : Nat) :
    canResumeSession closeCode = false ↔
      (closeCode = 4007 ∨ closeCode = 4009 ∨ closeCode = 4003 ∨
       closeCode = 4010 ∨ closeCode = 4011 ∨ closeCode = 4012 ∨
       closeCode = 4013 ∨ closeCode = 4014) := by
  unfold canResumeSession
  split_ifs with h1 h2 <;> simp <;> omega

/-- C7: when the wrapped operation fails on every attempt, the backoff retry
invokes it exactly `maxAttempts` times and surfaces the error of the last
attempt. -/
theorem backoff_invokes_maxAttempts {E A : Type} (op : Nat → Except E A)
    (errs : Nat → E) (maxAttempts : Nat) (hmax : 1 ≤ maxAttempts)
    (hfail : ∀ i, op i = Except.error (errs i)) :
    withExponentialBackoff op maxAttempts =
      (maxAttempts, Except.error (errs (maxAttempts - 1))) := by
  unfold withExponentialBackoff
  rw [retryRun_all_fail op errs hfail (maxAttempts - 1) 0]
  have h1 : (0 : Nat) + (maxAttempts - 1) = maxAttempts - 1 := Nat.zero_add _
  rw [h1]
  have h2 : maxAttempts - 1 + 1 = maxAttempts := by omega
  rw [h2]

/-- Witness for C7: the gateway's `connectWithBackoff` (maxAttempts 10) on an
always-failing connect performs 10 invocations and surfaces the 10th
attempt's error. -/
theorem backoff_invokes_maxAttempts_witness :
    connectWithBackoff (fun i => (Except.error i : Except Nat Unit)) =
      (10, Except.error 9) :=
  backoff_invokes_maxAttempts (fun i => Except.error i) (fun i => i) 10
    (by decide) (fun _ => rfl)

/-- C8 counterexample: an INTERACTION_CREATE dispatch whose interaction type
is 3 (a message component, not a slash command) is not enqueued as a typed
interaction event — only the generic event is enqueued — contradicting the
claim that every dispatch denoting an interaction yields the typed event. -/
theorem interaction_type3_counterexample :
    messageHandlerStep initialGatewayState (WebSocketMessage.textMessage
      (Except.ok type3InteractionPayload)) =
      Except.ok (initialGatewayState,
        [GatewayAction.enqueue (DiscordEvent.gatewayEvent type3InteractionPayload)]) ∧
    GatewayAction.enqueue (DiscordEvent.interactionEvent type3InteractionD) ∉
      [GatewayAction.enqueue (DiscordEvent.gatewayEvent type3InteractionPayload)] := by
  constructor
  · rfl
  · decide

/-- C8 (amended): every dispatch is republished as a generic event; a
MESSAGE_CREATE dispatch always also enqueues the typed message event; an
INTERACTION_CREATE dispatch enqueues the typed interaction event exactly when
the interaction type is 2 (a slash command). -/
theorem dispatch_event_enqueued (st : GatewayState) (s : Option Int)
    (t : String) (d : DispatchD) :
    handlerOk (messageHandlerStep st (WebSocketMessage.textMessage
      (Except.ok (GatewayReceivePayload.dispatch s t d)))) = true ∧
    GatewayAction.enqueue (DiscordEvent.gatewayEvent
        (GatewayReceivePayload.dispatch s t d)) ∈
      handlerActions (messageHandlerStep st (WebSocketMessage.textMessage
        (Except.ok (GatewayReceivePayload.dispatch s t d)))) ∧
    (GatewayAction.enqueue (DiscordEvent.messageEvent d) ∈
        handlerActions (messageHandlerStep st (WebSocketMessage.textMessage
          (Except.ok (GatewayReceivePayload.dispatch s t d)))) ↔
      t = "MESSAGE_CREATE") ∧
    (GatewayAction.enqueue (DiscordEvent.interactionEvent d) ∈
        handlerActions (messageHandlerStep st (WebSocketMessage.textMessage
          (Except.ok (GatewayReceivePayload.dispatch s t d)))) ↔
      (t = "INTERACTION_CREATE" ∧ d.type = 2)) := by
  cases s <;>
    simp only [messageHandlerStep, GatewayReceivePayload.s, recordSeqState,
      recordSeqActions, handlerOk, handlerActions, List.cons_append,
      List.nil_append] <;>
    unfold dispatchTypedActions <;>
    split_ifs <;>
    simp_all

/-- Witness for C8 (amended): a MESSAGE_CREATE dispatch with sequence 7 is
enqueued as a typed message event, as a generic event, and not as an
interaction event. -/
theorem dispatch_event_enqueued_witness :
    handlerOk (messageHandlerStep initialGatewayState (WebSocketMessage.textMessage
      (Except.ok (GatewayReceivePayload.dispatch (some 7) "MESSAGE_CREATE"
        sampleDispatchD)))) = true ∧
    GatewayAction.enqueue (DiscordEvent.gatewayEvent
        (GatewayReceivePayload.dispatch (some 7) "MESSAGE_CREATE" sampleDispatchD)) ∈
      handlerActions (messageHandlerStep initialGatewayState
        (WebSocketMessage.textMessage (Except.ok (GatewayReceivePayload.dispatch
          (some 7) "MESSAGE_CREATE" sampleDispatchD)))) ∧
    (GatewayAction.enqueue (DiscordEvent.messageEvent sampleDispatchD) ∈
        handlerActions (messageHandlerStep initialGatewayState
          (WebSocketMessage.textMessage (Except.ok (GatewayReceivePayload.dispatch
            (some 7) "MESSAGE_CREATE" sampleDispatchD)))) ↔
      "MESSAGE_CREATE" = "MESSAGE_CREATE") ∧
    (GatewayAction.enqueue (DiscordEvent.interactionEvent sampleDispatchD) ∈
        handlerActions (messageHandlerStep initialGatewayState
          (WebSocketMessage.textMessage (Except.ok (GatewayReceivePayload.dispatch
            (some 7) "MESSAGE_CREATE" sampleDispatchD)))) ↔
      ("MESSAGE_CREATE" = "INTERACTION_CREATE" ∧ sampleDispatchD.type = 2)) :=
  dispatch_event_enqueued initialGatewayState (some 7) "MESSAGE_CREATE" sampleDispatchD

/-- C9 counterexample: on a `Disconnected` state with the fatal close code
4004 the `stateHandler` only logs — the event queue is not shut down,
contradicting the claim that every terminal state shuts it down. -/
theorem queue_not_shutdown_on_fatal_close :
    GatewayAction.queueShutdown ∉
      stateHandlerStep (WebSocketStateValue.disconnected 4004 "Authentication failed") := by
  decide

/-- C9 (amended): the event queue is shut down on `Failed` and on
`Disconnected` with any reconnectable close code (every code except 4004);
on the fatal authentication-failed code 4004 it is not shut down. -/
theorem queue_shutdown_policy (code : Nat) (reason : String) :
    (GatewayAction.queueShutdown ∈
        stateHandlerStep (WebSocketStateValue.disconnected code reason) ↔
      code ≠ 4004) ∧
    GatewayAction.queueShutdown ∈ stateHandlerStep WebSocketStateValue.failed := by
  constructor
  · simp only [stateHandlerStep]
    cases hsr : shouldReconnect code with
    | false =>
      have hc := (shouldReconnect_false_iff code).mp hsr
      subst hc
      simp [hsr]
    | true =>
      have hc : code ≠ 4004 := by
        intro heq
        rw [heq] at hsr
        have hval : shouldReconnect 4004 = false := by decide
        rw [hval] at hsr
        cases hsr
      simp [hsr, hc]
  · simp [stateHandlerStep]

/-- C10: a binary frame is ignored by the `messageHandler`: the step returns
with the session state unchanged and an empty trace — nothing recorded,
nothing enqueued, nothing sent. -/
theorem binary_frame_no_effect (st : GatewayState) (size : Nat) :
    messageHandlerStep st (WebSocketMessage.binaryMessage size) =
      Except.ok (st, []) := rfl

end DiscordBot
